import Mathlib

/-!
Verification of the SmartToll two-stage streaming pipeline.

The definitions below are a shallow embedding of the repository's code:
the billing workflow (`billing_service/app/billing.py`), the two consumer
loops (`toll_processor/app/main.py`, `billing_service/app/consumer.py`),
the keyed state store (`toll_processor/app/state.py`), and the zone
tracker.  Machine floats are modelled as rationals; external effects
(database commits, the payment gateway, the broker) are injected through
explicit oracle records so that every failure branch of the source is a
reachable branch of the model.
-/

namespace SmartToll

/-- Transaction status column of `billing_transactions`
(`billing_service/app/models.py`, `status`). -/
inductive TxStatus
  | PENDING
  | PROCESSING
  | SUCCESS
  | FAILED
  | RETRY
deriving DecidableEq, Repr

/-- Inter-service TollEvent wire record
(`billing_service/app/models.py`, class `TollEvent`). -/
structure TollEvent where
  eventId : String
  vehicleId : String
  deviceId : String
  zoneId : String
  entryTime : Int
  exitTime : Int
  distanceKm : ℚ
  ratePerKm : ℚ
  tollAmount : ℚ
  currency : String
  processedTimestamp : Int
deriving DecidableEq, Repr

/-- Durable transaction row
(`billing_service/app/models.py`, class `BillingTransaction`); the fields
the billing logic reads or writes. -/
structure BillingTransaction where
  id : Nat
  toll_event_id : String
  vehicle_id : String
  amount : ℚ
  currency : String
  status : TxStatus
  payment_gateway_ref : Option String
  error_message : Option String
  retry_count : Nat
deriving DecidableEq, Repr

/-- Output wire record
(`billing_service/app/models.py`, class `PaymentResult`). -/
structure PaymentResult where
  eventId : String
  transactionId : Nat
  vehicleId : String
  status : TxStatus
  gatewayReference : Option String
  errorMessage : Option String
deriving DecidableEq, Repr

/-- Decimal rounding, half up, to two fractional digits. -/
def roundHalfUp2 (q : ℚ) : ℚ :=
  (((q * 100 + 1 / 2).floor : ℤ) : ℚ) / 100

/-- Rounding of a rational to the nearest integer, ties to even
(the rounding Python's built-in `round` uses). -/
def roundHalfEvenInt (q : ℚ) : ℤ :=
  let f := q.floor
  let r := q - (f : ℚ)
  if r < 1 / 2 then f
  else if 1 / 2 < r then f + 1
  else if f % 2 = 0 then f else f + 1

/-- Python's `round(x, 2)` on an exact rational value. -/
def pythonRound2 (q : ℚ) : ℚ :=
  ((roundHalfEvenInt (q * 100) : ℤ) : ℚ) / 100

/-- Outcome of the `payment.process_payment` call
(`billing_service/app/payment.py`): a gateway reference on success, a
typed `PaymentGatewayError`, or any other exception. -/
inductive PaymentOutcome
  | success (gatewayRef : String)
  | gatewayError (code msg : String)
  | unexpectedError (msg : String)
deriving DecidableEq, Repr

/-- Oracle for the external effects of one run of
`process_toll_event_for_billing`: whether each database commit succeeds,
what the payment gateway answers, and whether the broker send succeeds. -/
structure BillingEnv where
  insertCommitOk : Bool
  processingCommitOk : Bool
  payment : PaymentOutcome
  finalCommitOk : Bool
  publishOk : Bool
deriving DecidableEq, Repr

/-- Observable effects of one run of `process_toll_event_for_billing`:
the returned success signal, whether the gateway was invoked, the status
and retry count of the row at the moment of the gateway call, and the
PaymentResult messages handed to the broker. -/
structure BillingEffects where
  returned : Bool
  gatewayCalled : Bool
  statusAtGateway : Option TxStatus
  retryCountAtGateway : Option Nat
  published : List PaymentResult
deriving DecidableEq, Repr

/-- Effects record of a run that never reached the gateway nor the
publish step. -/
def noBillingEffects (returned : Bool) : BillingEffects :=
  { returned := returned, gatewayCalled := false, statusAtGateway := none,
    retryCountAtGateway := none, published := [] }

/-- Number of rows of the transaction store carrying a given
`toll_event_id`. -/
def countEventRows (db : List BillingTransaction) (t : String) : Nat :=
  db.countP (fun r => r.toll_event_id == t)

/-- The idempotency probe: `SELECT` by `toll_event_id`
(`billing.py`, step 1). -/
def findByEventId (db : List BillingTransaction) (t : String) :
    Option BillingTransaction :=
  db.find? (fun r => r.toll_event_id == t)

/-- Lookup of a row by primary key (`db.get`, `billing.py` line 110). -/
def findById (db : List BillingTransaction) (i : Nat) :
    Option BillingTransaction :=
  db.find? (fun r => r.id == i)

/-- Primary key the database assigns to the next inserted row. -/
def nextId (db : List BillingTransaction) : Nat :=
  db.foldl (fun m r => max m r.id) 0 + 1

/-- UPDATE of the row with primary key `i`. -/
def updateById (db : List BillingTransaction) (i : Nat)
    (f : BillingTransaction → BillingTransaction) : List BillingTransaction :=
  db.map (fun r => if r.id = i then f r else r)

/-- Steps 4 and 5 of `process_toll_event_for_billing` (`billing.py` lines
105-157): write the final status, gateway reference and error message;
on a database error roll back and return the failure signal — the publish
of step 5 is only reached after a successful final commit. -/
def billingFinalPhase (ev : TollEvent) (env : BillingEnv) (txId : Nat)
    (db : List BillingTransaction) (gwCalled : Bool)
    (stAtGw : Option TxStatus) (rcAtGw : Option Nat)
    (finalStatus : TxStatus) (gwRef : Option String) (errMsg : Option String) :
    BillingEffects × List BillingTransaction :=
  match findById db txId with
  | none =>
    ({ returned := false, gatewayCalled := gwCalled, statusAtGateway := stAtGw,
       retryCountAtGateway := rcAtGw, published := [] }, db)
  | some _ =>
    if env.finalCommitOk then
      let db2 := updateById db txId (fun r =>
        { r with status := finalStatus, payment_gateway_ref := gwRef,
                 error_message := errMsg })
      let pr : PaymentResult :=
        { eventId := ev.eventId, transactionId := txId,
          vehicleId := ev.vehicleId, status := finalStatus,
          gatewayReference := gwRef, errorMessage := errMsg }
      ({ returned := true, gatewayCalled := gwCalled, statusAtGateway := stAtGw,
         retryCountAtGateway := rcAtGw, published := [pr] }, db2)
    else
      ({ returned := false, gatewayCalled := gwCalled, statusAtGateway := stAtGw,
         retryCountAtGateway := rcAtGw, published := [] }, db)

/-- Step 3 of `process_toll_event_for_billing` (`billing.py` lines
63-103): mark the row PROCESSING, then call the payment gateway inside
one try block.  A failure of the PROCESSING commit is caught by the
generic exception handler, so the gateway is not invoked and the final
status defaults to FAILED with an unexpected-error message. -/
def billingPaymentPhase (ev : TollEvent) (env : BillingEnv) (txId : Nat)
    (db : List BillingTransaction) : BillingEffects × List BillingTransaction :=
  if env.processingCommitOk then
    let db2 := updateById db txId (fun r => { r with status := TxStatus.PROCESSING })
    let stAtGw := (findById db2 txId).map (fun r => r.status)
    let rcAtGw := (findById db2 txId).map (fun r => r.retry_count)
    match env.payment with
    | PaymentOutcome.success ref =>
      billingFinalPhase ev env txId db2 true stAtGw rcAtGw
        TxStatus.SUCCESS (some ref) none
    | PaymentOutcome.gatewayError code msg =>
      billingFinalPhase ev env txId db2 true stAtGw rcAtGw
        TxStatus.FAILED none (some (code ++ ": " ++ msg))
    | PaymentOutcome.unexpectedError msg =>
      billingFinalPhase ev env txId db2 true stAtGw rcAtGw
        TxStatus.FAILED none (some ("Unexpected system error: " ++ msg))
  else
    billingFinalPhase ev env txId db false none none
      TxStatus.FAILED none (some "Unexpected system error: database commit failed")

/-- The PENDING row step 2 of `billing.py` inserts (lines 41-47): the
amount is `round(event.tollAmount, 2)` and the retry count starts at the
column default 0. -/
def newPendingTx (ev : TollEvent) (txId : Nat) : BillingTransaction :=
  { id := txId, toll_event_id := ev.eventId, vehicle_id := ev.vehicleId,
    amount := pythonRound2 ev.tollAmount, currency := ev.currency,
    status := TxStatus.PENDING, payment_gateway_ref := none,
    error_message := none, retry_count := 0 }

/-- Step 2 of `process_toll_event_for_billing` (`billing.py` lines
40-61): insert the PENDING row.  A violation of the unique constraint on
`toll_event_id` raises an integrity error: the insert is rolled back and
the event is treated as already handled (returns the success signal).
Any other database error rolls back and returns the failure signal. -/
def billingAfterProbe (ev : TollEvent) (env : BillingEnv)
    (db : List BillingTransaction) : BillingEffects × List BillingTransaction :=
  if db.any (fun r => r.toll_event_id == ev.eventId) then
    (noBillingEffects true, db)
  else if env.insertCommitOk then
    billingPaymentPhase ev env (nextId db) (db ++ [newPendingTx ev (nextId db)])
  else
    (noBillingEffects false, db)

/-- Shallow embedding of `process_toll_event_for_billing`
(`billing_service/app/billing.py`).  Step 1 is the idempotency probe: a
row with status SUCCESS, PENDING, PROCESSING or RETRY is treated as
already handled; a FAILED row falls through to the insert (where the
unique constraint then fires). -/
def process_toll_event_for_billing (ev : TollEvent) (env : BillingEnv)
    (db : List BillingTransaction) : BillingEffects × List BillingTransaction :=
  match findByEventId db ev.eventId with
  | some tx =>
    if tx.status = TxStatus.FAILED then billingAfterProbe ev env db
    else (noBillingEffects true, db)
  | none => billingAfterProbe ev env db

/-- Transaction store after a sequence of deliveries, each with its own
oracle of external outcomes. -/
def runBilling (deliveries : List (TollEvent × BillingEnv))
    (db : List BillingTransaction) : List BillingTransaction :=
  deliveries.foldl (fun d p => (process_toll_event_for_billing p.1 p.2 d).2) db

/-- Outcome of `processing.process_gps_message` as seen by the batch loop
of `toll_processor/app/main.py`: the record's processing returned True,
returned False (transient dependency failure), or raised (the
poison-skip path, which sets `commit_needed` and advances
`last_processed_offset` past the record). -/
inductive RecOutcome
  | ok
  | failed
  | raised
deriving DecidableEq, Repr

/-- One record of a polled batch for a partition. -/
structure BatchRec where
  offset : Nat
  outcome : RecOutcome
deriving DecidableEq, Repr

/-- The per-batch fold of `main_consumer_loop`
(`toll_processor/app/main.py` lines 67-100): `commit_needed` starts
false, `last_processed_offset` starts -1; a record that returned True or
raised sets `commit_needed` and records its offset; a record that
returned False leaves both untouched. -/
def batchScan (batch : List BatchRec) : Bool × Int :=
  batch.foldl
    (fun acc rec =>
      match rec.outcome with
      | RecOutcome.ok => (true, (rec.offset : Int))
      | RecOutcome.failed => acc
      | RecOutcome.raised => (true, (rec.offset : Int)))
    (false, -1)

/-- The consumer position after a poll: one past the last record of the
polled batch.  `consumer.commit()` with no arguments commits this
position (the code's own comment: it "commits the offsets for all
partitions fetched in the last poll"). -/
def batchEndPosition (batch : List BatchRec) : Option Nat :=
  batch.getLast?.map (fun rec => rec.offset + 1)

/-- Offset committed by the toll-processor loop for a partition's batch
(`main.py` lines 102-118): `consumer.commit()` runs iff `commit_needed`
and `last_processed_offset >= 0`, and it commits the consumer position,
which is past the entire polled batch. -/
def tollLoopCommit (batch : List BatchRec) : Option Nat :=
  let s := batchScan batch
  if s.1 = true ∧ 0 ≤ s.2 then batchEndPosition batch else none

/-- Outcome of one message of the billing consumer
(`billing_service/app/consumer.py`, `process_message`): the billing
logic returned True (commit), returned False (transient failure, no
commit), the payload failed validation (poison pill, commit), or an
unhandled exception was caught (commit to avoid blocking). -/
inductive BillingMsgOutcome
  | processed
  | failedTransient
  | invalidFormat
  | unhandled
deriving DecidableEq, Repr

/-- Highest offset committed by the billing consumer for a polled batch:
`process_message` calls `consumer.commit()` after every message except a
transient failure, and each such commit commits the consumer position,
which is already past the entire polled batch. -/
def billingBatchCommit (batch : List (Nat × BillingMsgOutcome)) : Option Nat :=
  if batch.any (fun m => m.2 != BillingMsgOutcome.failedTransient) then
    batch.getLast?.map (fun m => m.1 + 1)
  else none

/-- Per-vehicle tracker state (spec section 3, `VehicleState`), keyed by
`vehicleId` in the state store; field names follow the repository's
tests (`toll_processor/tests/test_processing.py`). -/
structure VehicleState where
  in_zone : Bool
  zone_id : String
  rate_per_km : ℚ
  entry_time : Int
  distance_km : ℚ
  lat : ℚ
  lon : ℚ
  last_update : Int
  deviceId : String
deriving DecidableEq, Repr

/-- Classification of the raw value the state store holds for a vehicle,
by how `get_vehicle_state` parses it: no value, a value `json.loads`
rejects, a value that decodes but fails `VehicleState` validation, or a
valid serialized state. -/
inductive StoredValue
  | missing
  | corruptJson (raw : String)
  | invalidState (raw : String)
  | validState (v : VehicleState)
deriving DecidableEq, Repr

/-- Result of `get_vehicle_state`: the optional state handed back to the
caller, and whether the stored key was deleted during the read. -/
structure GetResult where
  result : Option VehicleState
  deletedKey : Bool
deriving DecidableEq, Repr

/-- Shallow embedding of `get_vehicle_state`
(`toll_processor/app/state.py` lines 74-106).  A Redis connection or
timeout error returns None — the code's comment: "Treat connection
errors as state not found for safety".  Undecodable JSON deletes the key
and returns None; a value that fails `VehicleState` validation falls
into the generic handler, which returns None without deleting. -/
def get_vehicle_state (stored : StoredValue) (netError : Bool) : GetResult :=
  if netError then { result := none, deletedKey := false }
  else
    match stored with
    | StoredValue.missing => { result := none, deletedKey := false }
    | StoredValue.corruptJson _ => { result := none, deletedKey := true }
    | StoredValue.invalidState _ => { result := none, deletedKey := false }
    | StoredValue.validState v => { result := some v, deletedKey := false }

/-- Result of `update_vehicle_state`: the boolean the function returns
and the value the store holds afterwards. -/
structure UpdateResult where
  returned : Bool
  stored : Option VehicleState
deriving DecidableEq, Repr

/-- Shallow embedding of `update_vehicle_state`
(`toll_processor/app/state.py` lines 108-137).  With a state, SET with
TTL and return the SET status; with None, DELETE and return
`deleted_count > 0`; a connection or timeout error returns False. -/
def update_vehicle_state (stored : Option VehicleState)
    (newState : Option VehicleState) (netError : Bool) (setOk : Bool) :
    UpdateResult :=
  if netError then { returned := false, stored := stored }
  else
    match newState with
    | some v =>
      if setOk then { returned := true, stored := some v }
      else { returned := false, stored := stored }
    | none => { returned := stored.isSome, stored := none }

/-- Looked-up toll zone (`database.get_current_toll_zone` result). -/
structure ZoneInfo where
  zone_id : String
  rate_per_km : ℚ
deriving DecidableEq, Repr

/-- Validated GPS fix (fields the tracker reads). -/
structure GpsData where
  deviceId : String
  vehicleId : String
  timestamp : Int
  latitude : ℚ
  longitude : ℚ
deriving DecidableEq, Repr

/-- Modelled from the spec: `tollAmount = round_half_up(distanceKm ×
ratePerKm, 2 decimals)` in decimal arithmetic (spec sections 3 and 8,
property P5); the computing code, `toll_processor/app/processing.py`, is
not under src/ — only its tests pin this behaviour. -/
def computeTollAmount (distanceKm ratePerKm : ℚ) : ℚ :=
  roundHalfUp2 (distanceKm * ratePerKm)

/-- Modelled from the spec: the fresh `VehicleState` created on zone
entry (spec section 4.2, Entry row of the transition table):
`entryTime = fix.ts`, `distanceKm = 0`, position and device taken from
the fix. -/
def mkEntryState (z : ZoneInfo) (fix : GpsData) : VehicleState :=
  { in_zone := true, zone_id := z.zone_id, rate_per_km := z.rate_per_km,
    entry_time := fix.timestamp, distance_km := 0, lat := fix.latitude,
    lon := fix.longitude, last_update := fix.timestamp,
    deviceId := fix.deviceId }

/-- Modelled from the spec: the TollEvent emitted on exit or transition
(spec section 4.2): `exitTime` is the triggering fix's timestamp, entry
data comes from the stored state, `tollAmount` is the decimal half-up
amount, currency defaults to USD. -/
def mkTollEvent (freshId : String) (nowMs : Int) (s : VehicleState)
    (fix : GpsData) (totalKm : ℚ) : TollEvent :=
  { eventId := freshId, vehicleId := fix.vehicleId, deviceId := s.deviceId,
    zoneId := s.zone_id, entryTime := s.entry_time, exitTime := fix.timestamp,
    distanceKm := totalKm, ratePerKm := s.rate_per_km,
    tollAmount := computeTollAmount totalKm s.rate_per_km,
    currency := "USD", processedTimestamp := nowMs }

/-- Events emitted and state-store writes issued by one run of the
tracker; a write of `none` is the delete of the vehicle's entry. -/
structure TrackerOutput where
  events : List TollEvent
  stateWrites : List (Option VehicleState)
deriving DecidableEq, Repr

/-- Modelled from the spec: the zone-tracker transition function
`process_gps_message` (spec section 4.2); the file
`toll_processor/app/processing.py` is not under src/, only its tests and
its caller `main.py` are.  The distance function (Haversine in the
source) is passed in, as the tests do by mocking
`calculate_distance_haversine`; `freshId` is the opaque event id
generated at emission and `nowMs` the processing timestamp.  A stored
state with `in_zone = false` is classified like an absent state, per the
"absent / false" rows of the spec's transition table. -/
def process_gps_message (hav : ℚ → ℚ → ℚ → ℚ → ℚ) (freshId : String)
    (nowMs : Int) (prior : Option VehicleState) (currentZone : Option ZoneInfo)
    (fix : GpsData) : TrackerOutput :=
  let inZonePrior : Option VehicleState :=
    match prior with
    | some s => if s.in_zone then some s else none
    | none => none
  match inZonePrior, currentZone with
  | none, none => { events := [], stateWrites := [] }
  | none, some z => { events := [], stateWrites := [some (mkEntryState z fix)] }
  | some s, some z =>
    if s.zone_id = z.zone_id then
      let seg := hav s.lat s.lon fix.latitude fix.longitude
      { events := [],
        stateWrites := [some { s with
          distance_km := s.distance_km + seg, lat := fix.latitude,
          lon := fix.longitude, last_update := fix.timestamp }] }
    else
      let seg := hav s.lat s.lon fix.latitude fix.longitude
      { events := [mkTollEvent freshId nowMs s fix (s.distance_km + seg)],
        stateWrites := [none, some (mkEntryState z fix)] }
  | some s, none =>
    let seg := hav s.lat s.lon fix.latitude fix.longitude
    { events := [mkTollEvent freshId nowMs s fix (s.distance_km + seg)],
      stateWrites := [none] }

/-- Concrete TollEvent used to evaluate the billing workflow on explicit
inputs (values of `SAMPLE_TOLL_EVENT` in
`billing_service/tests/test_billing.py`). -/
def tollEventSample : TollEvent :=
  { eventId := "evt_abc123", vehicleId := "VEH_XYZ", deviceId := "DEV987",
    zoneId := "ZoneC", entryTime := 0, exitTime := 1000, distanceKm := 11/2,
    ratePerKm := 1/4, tollAmount := 138/100, currency := "USD",
    processedTimestamp := 1000 }

/-- Oracle of the scenario of `test_process_billing_event_db_error_on_update`:
the first two commits succeed, the gateway succeeds, the final commit
raises. -/
def envFinalCommitFails : BillingEnv :=
  { insertCommitOk := true, processingCommitOk := true,
    payment := PaymentOutcome.success "MOCK_GW_REF_SUCCESS",
    finalCommitOk := false, publishOk := true }

/-- Oracle of a fully successful run: every commit succeeds and the
gateway accepts the payment. -/
def envAllOk : BillingEnv :=
  { insertCommitOk := true, processingCommitOk := true,
    payment := PaymentOutcome.success "MOCK_GW_REF_SUCCESS",
    finalCommitOk := true, publishOk := true }

/-- Concrete stored row with status SUCCESS for the same event id as
`tollEventSample` (the setup of
`test_process_billing_event_duplicate_success`). -/
def existingSuccessRow : BillingTransaction :=
  { id := 99, toll_event_id := "evt_abc123", vehicle_id := "VEH_XYZ",
    amount := 138/100, currency := "USD", status := TxStatus.SUCCESS,
    payment_gateway_ref := some "MOCK_GW_REF_SUCCESS",
    error_message := none, retry_count := 0 }

/-- Concrete in-zone vehicle state (the setup of
`test_process_gps_message_exit_from_zone`: inside ZoneA at rate 0.15,
accumulated 1.25 km). -/
def vehicleStateA : VehicleState :=
  { in_zone := true, zone_id := "ZoneA", rate_per_km := 15/100,
    entry_time := 1000, distance_km := 5/4, lat := 40712/1000,
    lon := -74007/1000, last_update := 16000, deviceId := "DEV123" }

/-- Concrete GPS fix outside every zone, five seconds after entry. -/
def gpsFixOutside : GpsData :=
  { deviceId := "DEV123", vehicleId := "VEH_ABC", timestamp := 6000,
    latitude := 4072/100, longitude := -74 }

/-- Distance oracle returning a fixed 0.25 km segment, as the tests mock
`calculate_distance_haversine`. -/
def constSegment : ℚ → ℚ → ℚ → ℚ → ℚ := fun _ _ _ _ => 1/4

lemma ratFloor_intCast (n : ℤ) : ((n : ℚ)).floor = n := by
  rw [Rat.floor_def', Rat.num_intCast, Rat.den_intCast]
  simp

lemma pythonRound2_int_div_100 (n : ℤ) :
    pythonRound2 ((n : ℚ) / 100) = (n : ℚ) / 100 := by
  have h : ((n : ℚ) / 100) * 100 = (n : ℚ) := by
    field_simp
  simp only [pythonRound2, roundHalfEvenInt, h, ratFloor_intCast, sub_self]
  norm_num

lemma pythonRound2_roundHalfUp2 (q : ℚ) :
    pythonRound2 (roundHalfUp2 q) = roundHalfUp2 q := by
  rw [roundHalfUp2]
  exact pythonRound2_int_div_100 _

lemma computeTollAmount_test_vector :
    computeTollAmount (3/2) (15/100) = 23/100 := by
  have h : (3/2 : ℚ) * (15/100) * 100 + 1/2 = ((23 : ℤ) : ℚ) := by norm_num
  simp only [computeTollAmount, roundHalfUp2, h, ratFloor_intCast]
  norm_num

lemma batchScan_all_failed (batch : List BatchRec)
    (h : ∀ rec ∈ batch, rec.outcome = RecOutcome.failed) :
    batchScan batch = (false, -1) := by
  unfold batchScan
  generalize (false, (-1 : Int)) = acc
  induction batch generalizing acc with
  | nil => rfl
  | cons x tl ih =>
    have hx : x.outcome = RecOutcome.failed := h x (by simp)
    rw [List.foldl_cons, hx]
    exact ih (fun rec hr => h rec (by simp [hr])) acc

lemma billingBatchCommit_all_transient (batch : List (Nat × BillingMsgOutcome))
    (h : ∀ m ∈ batch, m.2 = BillingMsgOutcome.failedTransient) :
    billingBatchCommit batch = none := by
  unfold billingBatchCommit
  have hany : batch.any (fun m => m.2 != BillingMsgOutcome.failedTransient) = false := by
    rw [List.any_eq_false]
    intro m hm
    simp [h m hm]
  rw [hany]
  rfl

/-- C3: the spec's offset discipline — for both consumer loops, no offset
is committed past a record whose processing returned the transient
failure signal — fails on the code: when any record of a polled batch
succeeds, `consumer.commit()` commits the consumer position, which lies
past the whole batch.  Here the record at offset 0 failed transiently,
offset 1 succeeded, and both loops commit position 2, past the failed
record. -/
theorem loops_commit_past_transient_failure :
    tollLoopCommit [⟨0, RecOutcome.failed⟩, ⟨1, RecOutcome.ok⟩] = some 2 ∧
    billingBatchCommit
      [(0, BillingMsgOutcome.failedTransient), (1, BillingMsgOutcome.processed)] = some 2 ∧
    0 < 2 := by
  refine ⟨by decide, by decide, by decide⟩

lemma batchScan_foldl_spec (batch : List BatchRec) (acc : Bool × Int)
    (h : (∃ rec ∈ batch, rec.outcome ≠ RecOutcome.failed) ∨
         (acc.1 = true ∧ 0 ≤ acc.2)) :
    (List.foldl
      (fun acc rec =>
        match rec.outcome with
        | RecOutcome.ok => (true, (rec.offset : Int))
        | RecOutcome.failed => acc
        | RecOutcome.raised => (true, (rec.offset : Int)))
      acc batch).1 = true ∧
    0 ≤ (List.foldl
      (fun acc rec =>
        match rec.outcome with
        | RecOutcome.ok => (true, (rec.offset : Int))
        | RecOutcome.failed => acc
        | RecOutcome.raised => (true, (rec.offset : Int)))
      acc batch).2 := by
  induction batch generalizing acc with
  | nil =>
    rcases h with ⟨rec, hm, _⟩ | h2
    · cases hm
    · simpa using h2
  | cons x tl ih =>
    cases hx : x.outcome with
    | ok =>
      rw [List.foldl_cons, hx]
      exact ih _ (Or.inr ⟨rfl, Int.natCast_nonneg x.offset⟩)
    | raised =>
      rw [List.foldl_cons, hx]
      exact ih _ (Or.inr ⟨rfl, Int.natCast_nonneg x.offset⟩)
    | failed =>
      rw [List.foldl_cons, hx]
      rcases h with ⟨rec, hm, hne⟩ | h2
      · rcases List.mem_cons.mp hm with rfl | hm2
        · exact absurd hx hne
        · exact ih _ (Or.inl ⟨rec, hm2, hne⟩)
      · exact ih _ (Or.inr h2)

lemma batchScan_true_of_exists (batch : List BatchRec)
    (h : ∃ rec ∈ batch, rec.outcome ≠ RecOutcome.failed) :
    (batchScan batch).1 = true ∧ 0 ≤ (batchScan batch).2 := by
  unfold batchScan
  exact batchScan_foldl_spec batch (false, -1) (Or.inl h)

lemma tollLoopCommit_eq_batchEnd (batch : List BatchRec)
    (h : ∃ rec ∈ batch, rec.outcome ≠ RecOutcome.failed) :
    tollLoopCommit batch = batchEndPosition batch := by
  obtain ⟨h1, h2⟩ := batchScan_true_of_exists batch h
  simp only [tollLoopCommit]
  rw [if_pos ⟨h1, h2⟩]

lemma batchEndPosition_isSome (batch : List BatchRec) (h : batch ≠ []) :
    ∃ c, batchEndPosition batch = some c := by
  unfold batchEndPosition
  obtain ⟨l, hl⟩ := Option.isSome_iff_exists.mp (List.getLast?_isSome.mpr h)
  exact ⟨l.offset + 1, by rw [hl]; rfl⟩

lemma tollLoopCommit_none_iff (batch : List BatchRec) :
    tollLoopCommit batch = none ↔
      ∀ rec ∈ batch, rec.outcome = RecOutcome.failed := by
  constructor
  · intro h
    by_contra hc
    push_neg at hc
    obtain ⟨rec, hmem, hne⟩ := hc
    have hne2 : batch ≠ [] := by
      intro he
      subst he
      cases hmem
    obtain ⟨c, hcpos⟩ := batchEndPosition_isSome batch hne2
    rw [tollLoopCommit_eq_batchEnd batch ⟨rec, hmem, hne⟩, hcpos] at h
    cases h
  · intro h
    simp only [tollLoopCommit]
    rw [batchScan_all_failed batch h]
    simp

lemma key_le_getLast {α : Type} (key : α → Nat) :
    ∀ (l : List α) (x last : α),
      List.Pairwise (fun a b => key a < key b) l →
      l.getLast? = some last → x ∈ l → key x ≤ key last := by
  intro l
  induction l with
  | nil =>
    intro x last _ _ hx
    cases hx
  | cons a tl ih =>
    intro x last hs hl hx
    cases tl with
    | nil =>
      have ha : a = last := by simpa using hl
      have hxa : x = a := by simpa using hx
      rw [hxa, ha]
    | cons b tl2 =>
      rw [List.getLast?_cons_cons] at hl
      rcases List.mem_cons.mp hx with rfl | hx2
      · obtain ⟨hne, heq⟩ := List.mem_getLast?_eq_getLast hl
        have hmem : last ∈ b :: tl2 := by
          rw [heq]
          exact List.getLast_mem hne
        exact le_of_lt ((List.pairwise_cons.mp hs).1 last hmem)
      · exact ih x last (List.pairwise_cons.mp hs).2 hl hx2

lemma tollLoopCommit_past_batch (batch : List BatchRec)
    (hs : List.Pairwise (fun a b => a.offset < b.offset) batch) (c : Nat)
    (hc : tollLoopCommit batch = some c) (rec : BatchRec)
    (hmem : rec ∈ batch) : rec.offset < c := by
  have hend : batchEndPosition batch = some c := by
    by_cases hif : (batchScan batch).1 = true ∧ 0 ≤ (batchScan batch).2
    · rw [← hc]
      simp only [tollLoopCommit]
      rw [if_pos hif]
    · simp only [tollLoopCommit] at hc
      rw [if_neg hif] at hc
      cases hc
  unfold batchEndPosition at hend
  obtain ⟨l, hl, hcl⟩ := Option.map_eq_some'.mp hend
  have hle := key_le_getLast (fun r => r.offset) batch rec l hs hl hmem
  simp only at hle
  omega

lemma billingBatchCommit_none_iff (batch : List (Nat × BillingMsgOutcome)) :
    billingBatchCommit batch = none ↔
      ∀ m ∈ batch, m.2 = BillingMsgOutcome.failedTransient := by
  constructor
  · intro h m hm
    unfold billingBatchCommit at h
    by_cases hany : batch.any
        (fun m => m.2 != BillingMsgOutcome.failedTransient) = true
    · rw [if_pos hany, Option.map_eq_none', List.getLast?_eq_none_iff] at h
      subst h
      cases hm
    · have hany2 := Bool.not_eq_true _ |>.mp hany
      have := List.any_eq_false.mp hany2 m hm
      simpa using this
  · exact billingBatchCommit_all_transient batch

lemma billingBatchCommit_past_batch (batch : List (Nat × BillingMsgOutcome))
    (hs : List.Pairwise (fun a b => a.1 < b.1) batch) (c : Nat)
    (hc : billingBatchCommit batch = some c) (m : Nat × BillingMsgOutcome)
    (hm : m ∈ batch) : m.1 < c := by
  unfold billingBatchCommit at hc
  by_cases hany : batch.any
      (fun m => m.2 != BillingMsgOutcome.failedTransient) = true
  · rw [if_pos hany] at hc
    obtain ⟨l, hl, hcl⟩ := Option.map_eq_some'.mp hc
    have hle := key_le_getLast (fun m => m.1) batch m l hs hl hm
    simp only at hle
    omega
  · rw [if_neg hany] at hc
    cases hc

/-- C3 (amended): for both consumer loops over a polled batch whose
records are in offset order, the commit is withheld precisely when
every record of the batch returned the transient-failure signal; when
any record succeeded or took the poison-skip path (an exception, a
validation failure or an unhandled error), a commit happens, and the
committed offset lies strictly past every record of the polled batch,
including past its transient-failure records. -/
theorem loops_commit_discipline (batchT : List BatchRec)
    (batchB : List (Nat × BillingMsgOutcome))
    (hsT : List.Pairwise (fun a b => a.offset < b.offset) batchT)
    (hsB : List.Pairwise (fun a b => a.1 < b.1) batchB) :
    (tollLoopCommit batchT = none ↔
      ∀ rec ∈ batchT, rec.outcome = RecOutcome.failed) ∧
    (∀ c, tollLoopCommit batchT = some c → ∀ rec ∈ batchT, rec.offset < c) ∧
    (billingBatchCommit batchB = none ↔
      ∀ m ∈ batchB, m.2 = BillingMsgOutcome.failedTransient) ∧
    (∀ c, billingBatchCommit batchB = some c → ∀ m ∈ batchB, m.1 < c) :=
  ⟨tollLoopCommit_none_iff batchT,
   fun c hc rec hmem => tollLoopCommit_past_batch batchT hsT c hc rec hmem,
   billingBatchCommit_none_iff batchB,
   fun c hc m hm => billingBatchCommit_past_batch batchB hsB c hc m hm⟩

/-- Witness for the commit-discipline theorem at concrete mixed batches:
in each loop offset 0 fails transiently and offset 1 succeeds, the
sortedness hypotheses hold by computation, and the theorem applies. -/
theorem loops_commit_discipline_witness :
    List.Pairwise (fun a b => a.offset < b.offset)
      [BatchRec.mk 0 RecOutcome.failed, BatchRec.mk 1 RecOutcome.ok] ∧
    List.Pairwise (fun a b => a.1 < b.1)
      [((0 : Nat), BillingMsgOutcome.failedTransient),
       ((1 : Nat), BillingMsgOutcome.processed)] ∧
    ((tollLoopCommit [BatchRec.mk 0 RecOutcome.failed,
        BatchRec.mk 1 RecOutcome.ok] = none ↔
      ∀ rec ∈ [BatchRec.mk 0 RecOutcome.failed, BatchRec.mk 1 RecOutcome.ok],
        rec.outcome = RecOutcome.failed) ∧
     (∀ c, tollLoopCommit [BatchRec.mk 0 RecOutcome.failed,
        BatchRec.mk 1 RecOutcome.ok] = some c →
      ∀ rec ∈ [BatchRec.mk 0 RecOutcome.failed, BatchRec.mk 1 RecOutcome.ok],
        rec.offset < c) ∧
     (billingBatchCommit [((0 : Nat), BillingMsgOutcome.failedTransient),
        ((1 : Nat), BillingMsgOutcome.processed)] = none ↔
      ∀ m ∈ [((0 : Nat), BillingMsgOutcome.failedTransient),
        ((1 : Nat), BillingMsgOutcome.processed)],
        m.2 = BillingMsgOutcome.failedTransient) ∧
     (∀ c, billingBatchCommit [((0 : Nat), BillingMsgOutcome.failedTransient),
        ((1 : Nat), BillingMsgOutcome.processed)] = some c →
      ∀ m ∈ [((0 : Nat), BillingMsgOutcome.failedTransient),
        ((1 : Nat), BillingMsgOutcome.processed)], m.1 < c)) :=
  ⟨by decide, by decide,
   loops_commit_discipline _ _ (by decide) (by decide)⟩

/-- C7: the claim that both state-store operations surface network
connection/timeout errors as failures fails for `get_vehicle_state`: on
such an error it returns None — the very encoding of an absent state —
so a read of a vehicle with valid stored state under a network error is
indistinguishable from a read of a vehicle with no state at all. -/
theorem get_state_net_error_reported_as_absent :
    get_vehicle_state (StoredValue.validState vehicleStateA) true =
      get_vehicle_state StoredValue.missing false ∧
    (get_vehicle_state (StoredValue.validState vehicleStateA) true).result = none :=
  ⟨rfl, rfl⟩

/-- C7 (amended): `update_vehicle_state` surfaces connection/timeout
errors as a failure (returns False, store untouched), while
`get_vehicle_state` reports such errors as the state being absent
(returns None, no deletion). -/
theorem state_store_net_error_semantics (stored : StoredValue)
    (cur newState : Option VehicleState) (setOk : Bool) :
    (get_vehicle_state stored true).result = none ∧
    (get_vehicle_state stored true).deletedKey = false ∧
    (update_vehicle_state cur newState true setOk).returned = false ∧
    (update_vehicle_state cur newState true setOk).stored = cur :=
  ⟨rfl, rfl, rfl, rfl⟩

/-- C9: the claim that every corrupt or unparseable stored value is
deleted on read fails for values that decode as JSON but fail
`VehicleState` validation: they are treated as absent but the key is not
deleted (only the `json.JSONDecodeError` branch deletes). -/
theorem invalid_state_value_not_deleted_on_read :
    (get_vehicle_state (StoredValue.invalidState "not a vehicle state") false).deletedKey
      = false ∧
    (get_vehicle_state (StoredValue.invalidState "not a vehicle state") false).result
      = none :=
  ⟨rfl, rfl⟩

/-- C9 (amended): a stored value that fails JSON decoding is deleted on
read and treated as absent; a value that decodes but fails VehicleState
validation is treated as absent without being deleted. -/
theorem corrupt_value_read_semantics (raw1 raw2 : String) :
    get_vehicle_state (StoredValue.corruptJson raw1) false =
      { result := none, deletedKey := true } ∧
    get_vehicle_state (StoredValue.invalidState raw2) false =
      { result := none, deletedKey := false } :=
  ⟨rfl, rfl⟩

/-- C10: deleting the state of a vehicle that has no stored entry
returns False — `update_vehicle_state` returns `deleted_count > 0` —
although the resulting store (no entry) is exactly what was requested;
the delete's reported success signal is therefore not idempotent. -/
theorem delete_absent_state_returns_false (setOk : Bool) :
    update_vehicle_state none none false setOk =
      { returned := false, stored := none } :=
  rfl

lemma events_tollAmount_decimal (hav : ℚ → ℚ → ℚ → ℚ → ℚ) (freshId : String)
    (nowMs : Int) (prior : Option VehicleState) (zone : Option ZoneInfo)
    (fix : GpsData) :
    ∀ e ∈ (process_gps_message hav freshId nowMs prior zone fix).events,
      e.tollAmount = roundHalfUp2 (e.distanceKm * e.ratePerKm) := by
  intro e he
  cases prior with
  | none =>
    cases zone <;> simp [process_gps_message] at he
  | some s =>
    by_cases hz : s.in_zone
    · cases zone with
      | none =>
        simp only [process_gps_message, hz, if_true] at he
        simp only [List.mem_singleton] at he
        subst he
        rfl
      | some z =>
        by_cases hzz : s.zone_id = z.zone_id
        · simp [process_gps_message, hz, hzz] at he
        · simp only [process_gps_message, hz, if_true, if_neg hzz] at he
          simp only [List.mem_singleton] at he
          subst he
          rfl
    · cases zone <;> simp [process_gps_message, hz] at he

/-- C4: when the stored state says the vehicle is inside zone Z and the
geofence lookup at the fix returns no zone, the tracker emits exactly
one TollEvent, for Z, whose `exitTime` is the fix's timestamp and whose
`distanceKm` is the accumulated `distance_km` plus the final segment
distance from the last stored position to the fix, and it deletes the
vehicle's state entry (a single write of None). -/
theorem tracker_exit_emits_single_event (hav : ℚ → ℚ → ℚ → ℚ → ℚ)
    (freshId : String) (nowMs : Int) (s : VehicleState) (fix : GpsData)
    (hz : s.in_zone = true) :
    (process_gps_message hav freshId nowMs (some s) none fix).events.length = 1 ∧
    (process_gps_message hav freshId nowMs (some s) none fix).events.map
      (fun e => e.zoneId) = [s.zone_id] ∧
    (process_gps_message hav freshId nowMs (some s) none fix).events.map
      (fun e => e.exitTime) = [fix.timestamp] ∧
    (process_gps_message hav freshId nowMs (some s) none fix).events.map
      (fun e => e.distanceKm) =
      [s.distance_km + hav s.lat s.lon fix.latitude fix.longitude] ∧
    (process_gps_message hav freshId nowMs (some s) none fix).stateWrites = [none] := by
  simp [process_gps_message, hz, mkTollEvent]

/-- Witness for the exit theorem at the concrete scenario of
`test_process_gps_message_exit_from_zone`. -/
theorem tracker_exit_emits_single_event_witness :
    vehicleStateA.in_zone = true ∧
    ((process_gps_message constSegment "evt1" 6000 (some vehicleStateA) none
        gpsFixOutside).events.length = 1 ∧
     (process_gps_message constSegment "evt1" 6000 (some vehicleStateA) none
        gpsFixOutside).events.map (fun e => e.zoneId) = [vehicleStateA.zone_id] ∧
     (process_gps_message constSegment "evt1" 6000 (some vehicleStateA) none
        gpsFixOutside).events.map (fun e => e.exitTime) = [gpsFixOutside.timestamp] ∧
     (process_gps_message constSegment "evt1" 6000 (some vehicleStateA) none
        gpsFixOutside).events.map (fun e => e.distanceKm) =
        [vehicleStateA.distance_km +
          constSegment vehicleStateA.lat vehicleStateA.lon
            gpsFixOutside.latitude gpsFixOutside.longitude] ∧
     (process_gps_message constSegment "evt1" 6000 (some vehicleStateA) none
        gpsFixOutside).stateWrites = [none]) :=
  ⟨rfl, tracker_exit_emits_single_event constSegment "evt1" 6000 vehicleStateA
    gpsFixOutside rfl⟩

lemma countEventRows_updateById (db : List BillingTransaction) (i : Nat)
    (f : BillingTransaction → BillingTransaction)
    (hf : ∀ r, (f r).toll_event_id = r.toll_event_id) (t : String) :
    countEventRows (updateById db i f) t = countEventRows db t := by
  unfold countEventRows updateById
  rw [List.countP_map]
  apply List.countP_congr
  intro r _
  by_cases h : r.id = i <;> simp [h, hf]

lemma countEventRows_billingFinalPhase (ev : TollEvent) (env : BillingEnv)
    (txId : Nat) (db : List BillingTransaction) (gw : Bool)
    (st : Option TxStatus) (rc : Option Nat) (fs : TxStatus)
    (gr em : Option String) (t : String) :
    countEventRows (billingFinalPhase ev env txId db gw st rc fs gr em).2 t =
      countEventRows db t := by
  unfold billingFinalPhase
  cases findById db txId with
  | none => rfl
  | some r =>
    by_cases h : env.finalCommitOk = true
    · simp only [h, if_true]
      exact countEventRows_updateById db txId
        (fun r => { r with status := fs, payment_gateway_ref := gr,
                           error_message := em }) (fun r => rfl) t
    · simp [h]

lemma countEventRows_billingPaymentPhase (ev : TollEvent) (env : BillingEnv)
    (txId : Nat) (db : List BillingTransaction) (t : String) :
    countEventRows (billingPaymentPhase ev env txId db).2 t =
      countEventRows db t := by
  unfold billingPaymentPhase
  by_cases hp : env.processingCommitOk = true
  · simp only [hp, if_true]
    cases env.payment <;>
      · rw [countEventRows_billingFinalPhase]
        exact countEventRows_updateById db txId
          (fun r => { r with status := TxStatus.PROCESSING }) (fun r => rfl) t
  · rw [if_neg hp]
    exact countEventRows_billingFinalPhase ev env txId db false none none
      TxStatus.FAILED none _ t

lemma countEventRows_eq_zero_of_find_none (db : List BillingTransaction)
    (t : String) (h : findByEventId db t = none) :
    countEventRows db t = 0 := by
  unfold findByEventId at h
  unfold countEventRows
  rw [List.countP_eq_zero]
  intro r hr
  exact List.find?_eq_none.1 h r hr

lemma process_toll_event_probe_none (ev : TollEvent) (env : BillingEnv)
    (db : List BillingTransaction) (h : findByEventId db ev.eventId = none) :
    process_toll_event_for_billing ev env db = billingAfterProbe ev env db := by
  unfold process_toll_event_for_billing
  rw [h]

lemma process_toll_event_probe_failed (ev : TollEvent) (env : BillingEnv)
    (db : List BillingTransaction) (tx : BillingTransaction)
    (h : findByEventId db ev.eventId = some tx)
    (hst : tx.status = TxStatus.FAILED) :
    process_toll_event_for_billing ev env db = billingAfterProbe ev env db := by
  unfold process_toll_event_for_billing
  rw [h]
  simp [hst]

lemma process_toll_event_probe_handled (ev : TollEvent) (env : BillingEnv)
    (db : List BillingTransaction) (tx : BillingTransaction)
    (h : findByEventId db ev.eventId = some tx)
    (hst : tx.status ≠ TxStatus.FAILED) :
    process_toll_event_for_billing ev env db = (noBillingEffects true, db) := by
  unfold process_toll_event_for_billing
  rw [h]
  simp [hst]

lemma countEventRows_billingAfterProbe (ev : TollEvent) (env : BillingEnv)
    (db : List BillingTransaction) (t : String)
    (h : countEventRows db t ≤ 1) :
    countEventRows (billingAfterProbe ev env db).2 t ≤ 1 := by
  unfold billingAfterProbe
  by_cases hany : db.any (fun r => r.toll_event_id == ev.eventId) = true
  · rw [if_pos hany]
    exact h
  · rw [if_neg hany]
    have hany2 : db.any (fun r => r.toll_event_id == ev.eventId) = false :=
      Bool.not_eq_true _ |>.mp hany
    have hnone : findByEventId db ev.eventId = none := by
      unfold findByEventId
      rw [List.find?_eq_none]
      exact List.any_eq_false.mp hany2
    by_cases hins : env.insertCommitOk = true
    · rw [if_pos hins, countEventRows_billingPaymentPhase]
      unfold countEventRows at *
      rw [List.countP_append]
      have hone : List.countP (fun r => r.toll_event_id == t)
          [newPendingTx ev (nextId db)] ≤ 1 := by
        by_cases hx : ((newPendingTx ev (nextId db)).toll_event_id == t) = true <;>
          simp [List.countP_cons, hx]
      by_cases ht : ev.eventId = t
      · have h0 : db.countP (fun r => r.toll_event_id == t) = 0 := by
          subst ht
          exact countEventRows_eq_zero_of_find_none db ev.eventId hnone
        omega
      · have h1 : List.countP (fun r => r.toll_event_id == t)
            [newPendingTx ev (nextId db)] = 0 := by
          simp [newPendingTx, ht]
        omega
    · rw [if_neg hins]
      exact h

lemma countEventRows_step (ev : TollEvent) (env : BillingEnv)
    (db : List BillingTransaction) (t : String)
    (h : countEventRows db t ≤ 1) :
    countEventRows (process_toll_event_for_billing ev env db).2 t ≤ 1 := by
  cases hfind : findByEventId db ev.eventId with
  | none =>
    rw [process_toll_event_probe_none ev env db hfind]
    exact countEventRows_billingAfterProbe ev env db t h
  | some tx =>
    by_cases hst : tx.status = TxStatus.FAILED
    · rw [process_toll_event_probe_failed ev env db tx hfind hst]
      exact countEventRows_billingAfterProbe ev env db t h
    · rw [process_toll_event_probe_handled ev env db tx hfind hst]
      exact h

lemma countEventRows_runBilling (deliveries : List (TollEvent × BillingEnv))
    (db : List BillingTransaction) (t : String)
    (h : countEventRows db t ≤ 1) :
    countEventRows (runBilling deliveries db) t ≤ 1 := by
  induction deliveries generalizing db with
  | nil => simpa [runBilling] using h
  | cons d tl ih =>
    exact ih (process_toll_event_for_billing d.1 d.2 db).2
      (countEventRows_step d.1 d.2 db t h)

/-- C2: starting from an empty transaction store, after any sequence of
deliveries (any events, any interleaving of gateway and database
outcomes) at most one BillingTransaction row carries any given
`toll_event_id`; the unique constraint turns a repeated insert into an
integrity error that is rolled back and treated as already handled. -/
theorem billing_toll_event_id_unique (deliveries : List (TollEvent × BillingEnv))
    (t : String) :
    countEventRows (runBilling deliveries []) t ≤ 1 :=
  countEventRows_runBilling deliveries [] t (by simp [countEventRows])

lemma le_foldl_max (db : List BillingTransaction) (a : Nat) :
    a ≤ db.foldl (fun m r => max m r.id) a := by
  induction db generalizing a with
  | nil => exact le_refl a
  | cons x tl ih => exact le_trans (le_max_left a x.id) (ih (max a x.id))

lemma mem_id_le_foldl_max (db : List BillingTransaction) (r : BillingTransaction)
    (hr : r ∈ db) (a : Nat) : r.id ≤ db.foldl (fun m x => max m x.id) a := by
  induction db generalizing a with
  | nil => cases hr
  | cons x tl ih =>
    rcases List.mem_cons.mp hr with h | h
    · subst h
      exact le_trans (le_max_right a r.id) (le_foldl_max tl _)
    · exact ih h _

lemma nextId_fresh (db : List BillingTransaction) (r : BillingTransaction)
    (hr : r ∈ db) : r.id ≠ nextId db := by
  have h := mem_id_le_foldl_max db r hr 0
  unfold nextId
  omega

lemma findById_insert_update (db : List BillingTransaction)
    (tx : BillingTransaction) (i : Nat)
    (f : BillingTransaction → BillingTransaction)
    (htx : tx.id = i) (hid : (f tx).id = tx.id)
    (hfresh : ∀ r ∈ db, r.id ≠ i) :
    findById (updateById (db ++ [tx]) i f) i = some (f tx) := by
  unfold findById updateById
  induction db with
  | nil =>
    simp [List.find?, htx, hid]
  | cons a tl ih =>
    have ha : a.id ≠ i := hfresh a (by simp)
    rw [List.cons_append, List.map_cons, List.find?_cons_of_neg]
    · exact ih (fun r hr => hfresh r (by simp [hr]))
    · simp [ha]

lemma billingFinalPhase_effects (ev : TollEvent) (env : BillingEnv)
    (txId : Nat) (db : List BillingTransaction) (gw : Bool)
    (st : Option TxStatus) (rc : Option Nat) (fs : TxStatus)
    (gr em : Option String) :
    (billingFinalPhase ev env txId db gw st rc fs gr em).1.gatewayCalled = gw ∧
    (billingFinalPhase ev env txId db gw st rc fs gr em).1.statusAtGateway = st ∧
    (billingFinalPhase ev env txId db gw st rc fs gr em).1.retryCountAtGateway = rc := by
  unfold billingFinalPhase
  cases findById db txId with
  | none => exact ⟨rfl, rfl, rfl⟩
  | some r => by_cases h : env.finalCommitOk = true <;> simp [h]

lemma billingAfterProbe_gateway (ev : TollEvent) (env : BillingEnv)
    (db : List BillingTransaction)
    (h : (billingAfterProbe ev env db).1.gatewayCalled = true) :
    (billingAfterProbe ev env db).1.statusAtGateway = some TxStatus.PROCESSING ∧
    (billingAfterProbe ev env db).1.retryCountAtGateway = some 0 := by
  unfold billingAfterProbe at h ⊢
  by_cases hany : db.any (fun r => r.toll_event_id == ev.eventId) = true
  · rw [if_pos hany] at h
    exact absurd h (by simp [noBillingEffects])
  · rw [if_neg hany] at h ⊢
    by_cases hins : env.insertCommitOk = true
    · rw [if_pos hins] at h ⊢
      unfold billingPaymentPhase at h ⊢
      by_cases hp : env.processingCommitOk = true
      · rw [if_pos hp] at h ⊢
        have hfind := findById_insert_update db (newPendingTx ev (nextId db))
          (nextId db) (fun r => { r with status := TxStatus.PROCESSING })
          rfl rfl (fun r hr => nextId_fresh db r hr)
        cases env.payment with
        | success ref =>
          obtain ⟨_, h2, h3⟩ := billingFinalPhase_effects ev env (nextId db) _
            true _ _ TxStatus.SUCCESS (some ref) none
          rw [h2, h3, hfind]
          exact ⟨rfl, rfl⟩
        | gatewayError code msg =>
          obtain ⟨_, h2, h3⟩ := billingFinalPhase_effects ev env (nextId db) _
            true _ _ TxStatus.FAILED none (some (code ++ ": " ++ msg))
          rw [h2, h3, hfind]
          exact ⟨rfl, rfl⟩
        | unexpectedError msg =>
          obtain ⟨_, h2, h3⟩ := billingFinalPhase_effects ev env (nextId db) _
            true _ _ TxStatus.FAILED none
            (some ("Unexpected system error: " ++ msg))
          rw [h2, h3, hfind]
          exact ⟨rfl, rfl⟩
      · rw [if_neg hp] at h
        obtain ⟨h1, _, _⟩ := billingFinalPhase_effects ev env (nextId db)
          (db ++ [newPendingTx ev (nextId db)]) false none none
          TxStatus.FAILED none (some "Unexpected system error: database commit failed")
        rw [h1] at h
        cases h
    · rw [if_neg hins] at h
      exact absurd h (by simp [noBillingEffects])

/-- C8 (amended): whenever the payment gateway is invoked by the billing
workflow, the transaction row's status has been updated to PROCESSING
beforehand, but `retryCount` is not incremented — it still holds the
column default 0, however many deliveries reach the gateway (the
increment in the source is commented out). -/
theorem billing_gateway_sees_processing_and_default_retry (ev : TollEvent)
    (env : BillingEnv) (db : List BillingTransaction)
    (h : (process_toll_event_for_billing ev env db).1.gatewayCalled = true) :
    (process_toll_event_for_billing ev env db).1.statusAtGateway =
      some TxStatus.PROCESSING ∧
    (process_toll_event_for_billing ev env db).1.retryCountAtGateway = some 0 := by
  cases hfind : findByEventId db ev.eventId with
  | none =>
    rw [process_toll_event_probe_none ev env db hfind] at h ⊢
    exact billingAfterProbe_gateway ev env db h
  | some tx =>
    by_cases hst : tx.status = TxStatus.FAILED
    · rw [process_toll_event_probe_failed ev env db tx hfind hst] at h ⊢
      exact billingAfterProbe_gateway ev env db h
    · rw [process_toll_event_probe_handled ev env db tx hfind hst] at h
      exact absurd h (by simp [noBillingEffects])

/-- Witness for the amended C8 theorem: one delivery of the sample event
with every external call succeeding reaches the gateway. -/
theorem billing_gateway_sees_processing_and_default_retry_witness :
    (process_toll_event_for_billing tollEventSample envAllOk []).1.gatewayCalled
      = true ∧
    ((process_toll_event_for_billing tollEventSample envAllOk []).1.statusAtGateway
      = some TxStatus.PROCESSING ∧
     (process_toll_event_for_billing tollEventSample envAllOk []).1.retryCountAtGateway
      = some 0) :=
  ⟨by decide,
   billing_gateway_sees_processing_and_default_retry tollEventSample envAllOk []
     (by decide)⟩

/-- C8: the claim that `retryCount` is incremented when the row is marked
PROCESSING fails on the code — after one delivery that reached the
gateway, the row's retry count at the gateway call is 0, not 1 (the
increment is commented out in `billing.py`). -/
theorem billing_retry_count_not_incremented :
    (process_toll_event_for_billing tollEventSample envAllOk []).1.gatewayCalled
      = true ∧
    (process_toll_event_for_billing tollEventSample envAllOk []).1.statusAtGateway
      = some TxStatus.PROCESSING ∧
    (process_toll_event_for_billing tollEventSample envAllOk []).1.retryCountAtGateway
      = some 0 ∧
    (process_toll_event_for_billing tollEventSample envAllOk []).1.retryCountAtGateway
      ≠ some 1 :=
  ⟨by decide, by decide, by decide, by decide⟩

/-- C1: when the gateway call has completed and the write of the final
status fails, the code returns the failure signal (offset not committed)
but publishes nothing — the publish of step 5 sits after the early
`return False` of step 4, contradicting the spec and the repository's
own test `test_process_billing_event_db_error_on_update`, which asserts
the PaymentResult is still published. -/
theorem billing_final_write_failure_drops_publish :
    (process_toll_event_for_billing tollEventSample envFinalCommitFails []).1.returned
      = false ∧
    (process_toll_event_for_billing tollEventSample envFinalCommitFails []).1.gatewayCalled
      = true ∧
    (process_toll_event_for_billing tollEventSample envFinalCommitFails []).1.published
      = [] :=
  ⟨by decide, by decide, by decide⟩

/-- C6: a delivery whose event id already has a stored row with status
SUCCESS, PENDING, PROCESSING or RETRY returns the success signal,
leaves the store unchanged, does not invoke the gateway and publishes
nothing. -/
theorem billing_duplicate_nonfailed_is_noop (ev : TollEvent) (env : BillingEnv)
    (db : List BillingTransaction) (tx : BillingTransaction)
    (hfind : findByEventId db ev.eventId = some tx)
    (hst : tx.status = TxStatus.SUCCESS ∨ tx.status = TxStatus.PENDING ∨
           tx.status = TxStatus.PROCESSING ∨ tx.status = TxStatus.RETRY) :
    (process_toll_event_for_billing ev env db).1.returned = true ∧
    (process_toll_event_for_billing ev env db).2 = db ∧
    (process_toll_event_for_billing ev env db).1.gatewayCalled = false ∧
    (process_toll_event_for_billing ev env db).1.published = [] := by
  have hne : tx.status ≠ TxStatus.FAILED := by
    rcases hst with h | h | h | h <;> simp [h]
  rw [process_toll_event_probe_handled ev env db tx hfind hne]
  exact ⟨rfl, rfl, rfl, rfl⟩

/-- Witness for the duplicate-handling theorem: the sample event against
a store already holding a SUCCESS row for its id. -/
theorem billing_duplicate_nonfailed_is_noop_witness :
    findByEventId [existingSuccessRow] tollEventSample.eventId =
      some existingSuccessRow ∧
    (existingSuccessRow.status = TxStatus.SUCCESS ∨
     existingSuccessRow.status = TxStatus.PENDING ∨
     existingSuccessRow.status = TxStatus.PROCESSING ∨
     existingSuccessRow.status = TxStatus.RETRY) ∧
    ((process_toll_event_for_billing tollEventSample envAllOk
        [existingSuccessRow]).1.returned = true ∧
     (process_toll_event_for_billing tollEventSample envAllOk
        [existingSuccessRow]).2 = [existingSuccessRow] ∧
     (process_toll_event_for_billing tollEventSample envAllOk
        [existingSuccessRow]).1.gatewayCalled = false ∧
     (process_toll_event_for_billing tollEventSample envAllOk
        [existingSuccessRow]).1.published = []) :=
  ⟨rfl, Or.inl rfl,
   billing_duplicate_nonfailed_is_noop tollEventSample envAllOk
     [existingSuccessRow] existingSuccessRow rfl (Or.inl rfl)⟩

lemma exists_row_billingFinalPhase (ev : TollEvent) (env : BillingEnv)
    (txId : Nat) (db : List BillingTransaction) (gw : Bool)
    (st : Option TxStatus) (rc : Option Nat) (fs : TxStatus)
    (gr em : Option String) (r : BillingTransaction) (hr : r ∈ db) :
    ∃ q ∈ (billingFinalPhase ev env txId db gw st rc fs gr em).2,
      q.toll_event_id = r.toll_event_id ∧ q.amount = r.amount := by
  unfold billingFinalPhase
  cases findById db txId with
  | none => exact ⟨r, hr, rfl, rfl⟩
  | some x =>
    by_cases h : env.finalCommitOk = true
    · rw [if_pos h]
      refine ⟨_, List.mem_map_of_mem _ hr, ?_, ?_⟩ <;>
        by_cases hid : r.id = txId <;> simp [hid]
    · rw [if_neg h]
      exact ⟨r, hr, rfl, rfl⟩

lemma exists_row_billingPaymentPhase (ev : TollEvent) (env : BillingEnv)
    (txId : Nat) (db : List BillingTransaction) (r : BillingTransaction)
    (hr : r ∈ db) :
    ∃ q ∈ (billingPaymentPhase ev env txId db).2,
      q.toll_event_id = r.toll_event_id ∧ q.amount = r.amount := by
  unfold billingPaymentPhase
  by_cases hp : env.processingCommitOk = true
  · rw [if_pos hp]
    have hr2 : (if r.id = txId then { r with status := TxStatus.PROCESSING } else r)
        ∈ updateById db txId (fun x => { x with status := TxStatus.PROCESSING }) :=
      List.mem_map_of_mem _ hr
    have hfield1 :
        (if r.id = txId then { r with status := TxStatus.PROCESSING } else r).toll_event_id
          = r.toll_event_id := by
      by_cases hid : r.id = txId <;> simp [hid]
    have hfield2 :
        (if r.id = txId then { r with status := TxStatus.PROCESSING } else r).amount
          = r.amount := by
      by_cases hid : r.id = txId <;> simp [hid]
    cases env.payment with
    | success ref =>
      obtain ⟨q, hq, h1, h2⟩ := exists_row_billingFinalPhase ev env txId _
        true _ _ TxStatus.SUCCESS (some ref) none _ hr2
      exact ⟨q, hq, h1.trans hfield1, h2.trans hfield2⟩
    | gatewayError code msg =>
      obtain ⟨q, hq, h1, h2⟩ := exists_row_billingFinalPhase ev env txId _
        true _ _ TxStatus.FAILED none (some (code ++ ": " ++ msg)) _ hr2
      exact ⟨q, hq, h1.trans hfield1, h2.trans hfield2⟩
    | unexpectedError msg =>
      obtain ⟨q, hq, h1, h2⟩ := exists_row_billingFinalPhase ev env txId _
        true _ _ TxStatus.FAILED none
        (some ("Unexpected system error: " ++ msg)) _ hr2
      exact ⟨q, hq, h1.trans hfield1, h2.trans hfield2⟩
  · rw [if_neg hp]
    exact exists_row_billingFinalPhase ev env txId db false none none
      TxStatus.FAILED none (some "Unexpected system error: database commit failed") r hr

/-- C5: every TollEvent the tracker emits carries
`tollAmount = round_half_up(distanceKm × ratePerKm, 2)` computed in
decimal (rational) arithmetic; on the source's test vector 1.5 km at
0.15 per km this yields 0.23, not the 0.22 that binary floating point
produces; Python's `round(x, 2)` leaves such a two-decimal amount
unchanged; and a fresh delivery stores a row whose amount is the
event's `tollAmount` rounded to two decimals. -/
theorem toll_amount_decimal_arithmetic (hav : ℚ → ℚ → ℚ → ℚ → ℚ)
    (freshId : String) (nowMs : Int) (prior : Option VehicleState)
    (zone : Option ZoneInfo) (fix : GpsData) (ev : TollEvent)
    (env : BillingEnv) (db : List BillingTransaction)
    (hnew : findByEventId db ev.eventId = none)
    (hins : env.insertCommitOk = true) :
    (∀ e ∈ (process_gps_message hav freshId nowMs prior zone fix).events,
        e.tollAmount = roundHalfUp2 (e.distanceKm * e.ratePerKm)) ∧
    computeTollAmount (3/2) (15/100) = 23/100 ∧
    computeTollAmount (3/2) (15/100) ≠ 22/100 ∧
    (∀ d r : ℚ, pythonRound2 (computeTollAmount d r) = computeTollAmount d r) ∧
    (∃ q ∈ (process_toll_event_for_billing ev env db).2,
        q.toll_event_id = ev.eventId ∧ q.amount = pythonRound2 ev.tollAmount) := by
  refine ⟨events_tollAmount_decimal hav freshId nowMs prior zone fix,
    computeTollAmount_test_vector, ?_, ?_, ?_⟩
  · rw [computeTollAmount_test_vector]
    norm_num
  · intro d r
    exact pythonRound2_roundHalfUp2 _
  · rw [process_toll_event_probe_none ev env db hnew]
    unfold billingAfterProbe
    have hany : db.any (fun r => r.toll_event_id == ev.eventId) = false :=
      List.any_eq_false.mpr (List.find?_eq_none.mp hnew)
    rw [if_neg (by simp [hany]), if_pos hins]
    have hmem : newPendingTx ev (nextId db) ∈ db ++ [newPendingTx ev (nextId db)] :=
      List.mem_append.mpr (Or.inr (by simp))
    obtain ⟨q, hq, h1, h2⟩ := exists_row_billingPaymentPhase ev env (nextId db)
      (db ++ [newPendingTx ev (nextId db)]) (newPendingTx ev (nextId db)) hmem
    exact ⟨q, hq, h1, h2⟩

/-- Witness for the amount-arithmetic theorem: a fresh delivery of the
sample event into an empty store, alongside the exit scenario of the
tracker. -/
theorem toll_amount_decimal_arithmetic_witness :
    findByEventId [] tollEventSample.eventId = none ∧
    envAllOk.insertCommitOk = true ∧
    ((∀ e ∈ (process_gps_message constSegment "evt1" 0 (some vehicleStateA)
        none gpsFixOutside).events,
        e.tollAmount = roundHalfUp2 (e.distanceKm * e.ratePerKm)) ∧
     computeTollAmount (3/2) (15/100) = 23/100 ∧
     computeTollAmount (3/2) (15/100) ≠ 22/100 ∧
     (∀ d r : ℚ, pythonRound2 (computeTollAmount d r) = computeTollAmount d r) ∧
     (∃ q ∈ (process_toll_event_for_billing tollEventSample envAllOk []).2,
        q.toll_event_id = tollEventSample.eventId ∧
        q.amount = pythonRound2 tollEventSample.tollAmount)) :=
  ⟨rfl, rfl,
   toll_amount_decimal_arithmetic constSegment "evt1" 0 (some vehicleStateA)
     none gpsFixOutside tollEventSample envAllOk [] rfl rfl⟩

end SmartToll
